import Mathlib


/-!
Verification of `src/Rohan/Youtube.py`.

A shallow embedding of the Tkinter application in `src/Rohan/Youtube.py`.
The program is a single-threaded GUI: every operation of interest mutates
in-memory widget state (the video grid's tiles, the comments panel's entry
list and input box, the header's search box) and/or prints lines to stdout.
We model that state explicitly as the structure `AppState` and each Python
method as a function `AppState → AppState`.  Randomness
(`random.randint(100, 1000000)` inside `VideoGrid.update_grid`) is modelled
by threading an arbitrary raw random source `r : Nat → Nat` through the
grid-building code and reducing each raw value into the requested inclusive
range.
-/

/-- One entry of the comments list: in the Python code, a `comment_frame`
holding an author label and a text label, produced by `Comments.add_comment`. -/
structure CommentEntry where
  author : String
  text : String
deriving DecidableEq, Repr

/-- One tile of the video grid: in the Python code, a `tk.Frame` placed at
`grid(row=i, column=j)` holding a thumbnail, a title label and a views label,
produced inside `VideoGrid.update_grid`. -/
structure Tile where
  row : Nat
  col : Nat
  title : String
  views : Nat
deriving DecidableEq, Repr

/-- Identifier of one of the five panels of the application, used to record
which panel's `create_widget` has been invoked. -/
inductive PanelId where
  | header
  | sidebar
  | videoGrid
  | videoPlayer
  | comments
deriving DecidableEq, Repr

/-- The observable in-memory state of the running application:
`searchEntry` is the content of `Header.search_entry`; `grid` the tiles
currently attached to `VideoGrid.grid`; `commentEntry` the content of the
`Comments.comment_entry` text box; `commentsList` the comment frames packed
into the current `Comments.comments_list` container; `commentsAdded` every
comment frame ever created by `Comments.add_comment` over the panel's
lifetime (old containers are never destroyed by `Comments.create_widget`);
`renderLog` the sequence of `create_widget` invocations; `out` the lines
printed to stdout. -/
structure AppState where
  searchEntry : String
  grid : List Tile
  commentEntry : String
  commentsList : List CommentEntry
  commentsAdded : List CommentEntry
  renderLog : List PanelId
  out : List String
deriving DecidableEq, Repr

/-- Append one printed line to stdout (`print(...)` in Python). -/
def emit (s : AppState) (line : String) : AppState :=
  { s with out := s.out ++ [line] }

/-- The `log_action` decorator: the returned wrapper first prints
`Action logged: <name> called` and then runs the wrapped function's body. -/
def log_action (name : String) (f : AppState → AppState) : AppState → AppState :=
  fun s => f (emit s ("Action logged: " ++ name ++ " called"))

/-- Python's whitespace test used by `str.strip()` (ASCII whitespace:
space, tab, newline, carriage return, vertical tab, form feed). -/
def pyIsSpace (c : Char) : Bool :=
  c == ' ' || c == '\t' || c == '\n' || c == '\r' || c == '\x0b' || c == '\x0c'

/-- Modelled from the spec: Python's `str.strip()` (standard-library code not
under `src/`), which removes leading and trailing whitespace. -/
def pyStrip (s : String) : String :=
  ⟨((s.data.dropWhile pyIsSpace).reverse.dropWhile pyIsSpace).reverse⟩

/-- Modelled from the spec: Python's `random.randint(a, b)` (standard-library
code not under `src/`), "uniform-random integer in [a, b]" — modelled as a
function of one raw value `r` from the random source, reduced into the
inclusive range `[a, b]`. -/
def randint (a b r : Nat) : Nat :=
  a + r % (b + 1 - a)

namespace Header

/-- Method `create_widget` of `Header`: builds the title bar; the search entry starts
empty; records the render. -/
def create_widget (s : AppState) : AppState :=
  { s with searchEntry := "", renderLog := s.renderLog ++ [PanelId.header] }

/-- Method `search` of `Header` (decorated with `@log_action`): reads
`self.search_entry.get()` and prints `Searching for: <query>`. -/
def search : AppState → AppState :=
  log_action "search" fun s => emit s ("Searching for: " ++ s.searchEntry)

end Header

namespace Sidebar

/-- Method `create_widget` of `Sidebar`: builds four static buttons with no wired
behavior; only the render is recorded. -/
def create_widget (s : AppState) : AppState :=
  { s with renderLog := s.renderLog ++ [PanelId.sidebar] }

end Sidebar

namespace VideoGrid

/-- One tile built in the inner loop of `VideoGrid.update_grid` for row `i`,
column `j`: title label `Video {i*3+j+1}` and views label
`random.randint(100, 1000000)`. -/
def make_tile (r : Nat → Nat) (i j : Nat) : Tile :=
  { row := i, col := j, title := "Video " ++ toString (i * 3 + j + 1),
    views := randint 100 1000000 (r (i * 3 + j)) }

/-- The two nested `for i in range(3): for j in range(3):` loops of
`VideoGrid.update_grid`, building the nine tiles in order. -/
def build_tiles (r : Nat → Nat) : List Tile :=
  (List.range 3).flatMap fun i => (List.range 3).map fun j => make_tile r i j

/-- Method `update_grid` of `VideoGrid` (decorated with `@log_action`): destroys every
widget currently in `self.grid` (`widget.destroy()` loop), then creates the
nine fresh tiles. -/
def update_grid (r : Nat → Nat) : AppState → AppState :=
  log_action "update_grid" fun s => { s with grid := build_tiles r }

/-- Method `create_widget` of `VideoGrid`: creates the (empty) `self.grid` frame,
records the render, then calls `self.update_grid()`. -/
def create_widget (r : Nat → Nat) (s : AppState) : AppState :=
  update_grid r { s with grid := [], renderLog := s.renderLog ++ [PanelId.videoGrid] }

end VideoGrid

namespace VideoPlayer

/-- Method `create_widget` of `VideoPlayer`: builds the placeholder player surface and
the Play/Pause buttons, which have no attached behavior; only the render is
recorded. -/
def create_widget (s : AppState) : AppState :=
  { s with renderLog := s.renderLog ++ [PanelId.videoPlayer] }

end VideoPlayer

namespace Comments

/-- Method `add_comment` of `Comments`: unconditionally packs one new `comment_frame`
(author label + text label) at the end of `self.comments_list`; the frame is
also recorded in the lifetime log `commentsAdded`. -/
def add_comment (user text : String) (s : AppState) : AppState :=
  { s with commentsList := s.commentsList ++ [⟨user, text⟩],
           commentsAdded := s.commentsAdded ++ [⟨user, text⟩] }

/-- Method `create_widget` of `Comments`: builds a fresh empty `comment_entry` text box
and a fresh empty `comments_list` container, records the render, then adds
the two sample comments. -/
def create_widget (s : AppState) : AppState :=
  add_comment "User2" "Very informative, thanks for sharing!"
    (add_comment "User1" "Great video!"
      { s with commentEntry := "", commentsList := [],
               renderLog := s.renderLog ++ [PanelId.comments] })

/-- Method `submit_comment` of `Comments` (decorated with `@log_action`): reads the text
box (Tk's `get("1.0", tk.END)` returns the content plus a trailing newline,
which `.strip()` removes together with any other surrounding whitespace); if
the stripped text is non-empty, adds the comment as author `You` and clears
the text box; otherwise does nothing. -/
def submit_comment : AppState → AppState :=
  log_action "submit_comment" fun s =>
    let comment := pyStrip (s.commentEntry ++ "\n")
    if comment ≠ "" then
      { add_comment "You" comment s with commentEntry := "" }
    else s

end Comments

namespace YouTubeApp

/-- Method `create_ui` of `YouTubeApp`: asks each of the five instantiated panels to
render itself, in the fixed textual order of the method's body. -/
def create_ui (r : Nat → Nat) (s : AppState) : AppState :=
  Comments.create_widget
    (VideoPlayer.create_widget
      (VideoGrid.create_widget r
        (Sidebar.create_widget
          (Header.create_widget s))))

/-- The state of the freshly constructed app before `create_ui` runs: no
widgets exist and nothing has been printed. -/
def initState : AppState :=
  { searchEntry := "", grid := [], commentEntry := "", commentsList := [],
    commentsAdded := [], renderLog := [], out := [] }

/-- Constructor of `YouTubeApp`: instantiates the five panels and then calls
`self.create_ui()` on the fresh state. -/
def startup (r : Nat → Nat) : AppState :=
  create_ui r initState

end YouTubeApp

/-! ## Claim theorems -/

/-- Every raw random value lands in the inclusive range `[100, 1000000]`. -/
theorem randint_mem_range (x : Nat) :
    100 ≤ randint 100 1000000 x ∧ randint 100 1000000 x ≤ 1000000 := by
  unfold randint
  have h : x % (1000000 + 1 - 100) < 1000000 + 1 - 100 := Nat.mod_lt _ (by norm_num)
  omega

/-- C1: `update_grid` first discards the previously attached tiles (the
resulting grid does not depend on the prior grid at all) and leaves exactly
9 tiles, with the tile for row `i`, column `j` stored at grid position
`(i, j)` for every `i, j < 3`. -/
theorem update_grid_rebuild (r : Nat → Nat) (s : AppState) (i j : Nat)
    (hi : i < 3) (hj : j < 3) :
    (VideoGrid.update_grid r s).grid = VideoGrid.build_tiles r ∧
    (VideoGrid.update_grid r s).grid.length = 9 ∧
    (VideoGrid.update_grid r s).grid.get? (i * 3 + j) = some (VideoGrid.make_tile r i j) ∧
    (VideoGrid.make_tile r i j).row = i ∧ (VideoGrid.make_tile r i j).col = j := by
  refine ⟨rfl, rfl, ?_, rfl, rfl⟩
  interval_cases i <;> interval_cases j <;> rfl

/-- C1 witness at a concrete random source, state and position. -/
theorem update_grid_rebuild_witness :
    (VideoGrid.update_grid (fun _ => 0) YouTubeApp.initState).grid.length = 9 ∧
    (VideoGrid.update_grid (fun _ => 0) YouTubeApp.initState).grid.get? (2 * 3 + 1) =
      some (VideoGrid.make_tile (fun _ => 0) 2 1) :=
  ⟨(update_grid_rebuild (fun _ => 0) YouTubeApp.initState 2 1 (by decide) (by decide)).2.1,
   (update_grid_rebuild (fun _ => 0) YouTubeApp.initState 2 1 (by decide) (by decide)).2.2.1⟩

/-- C2: when the stripped input is non-empty, `submit_comment` appends
exactly one entry `You`/stripped text to the end of the comments list,
renders its block (records it among the created comment frames) and clears
the input box. -/
theorem submit_comment_appends (s : AppState)
    (h : pyStrip (s.commentEntry ++ "\n") ≠ "") :
    (Comments.submit_comment s).commentsList =
      s.commentsList ++ [⟨"You", pyStrip (s.commentEntry ++ "\n")⟩] ∧
    (Comments.submit_comment s).commentsList.length = s.commentsList.length + 1 ∧
    (Comments.submit_comment s).commentsAdded =
      s.commentsAdded ++ [⟨"You", pyStrip (s.commentEntry ++ "\n")⟩] ∧
    (Comments.submit_comment s).commentEntry = "" := by
  unfold Comments.submit_comment log_action
  simp only [emit, Comments.add_comment]
  rw [if_pos h]
  exact ⟨rfl, by simp, rfl, rfl⟩

/-- C2 witness: submitting `Nice!` on the freshly rendered panel grows the
list from 2 to 3 entries and empties the input box. -/
theorem submit_comment_appends_witness :
    pyStrip (({ Comments.create_widget YouTubeApp.initState with
        commentEntry := "Nice!" } : AppState).commentEntry ++ "\n") ≠ "" ∧
    (Comments.submit_comment { Comments.create_widget YouTubeApp.initState with
        commentEntry := "Nice!" }).commentsList.length = 3 ∧
    (Comments.submit_comment { Comments.create_widget YouTubeApp.initState with
        commentEntry := "Nice!" }).commentEntry = "" :=
  ⟨by decide,
   by
    have h := submit_comment_appends
      { Comments.create_widget YouTubeApp.initState with commentEntry := "Nice!" } (by decide)
    exact ⟨h.2.1.trans (by decide), h.2.2.2⟩⟩

/-- C3: when the input strips to the empty string, `submit_comment` leaves
the comments list (and the set of rendered comment frames) unchanged; the
operation is total, so no error is raised. -/
theorem submit_comment_empty_noop (s : AppState)
    (h : pyStrip (s.commentEntry ++ "\n") = "") :
    (Comments.submit_comment s).commentsList = s.commentsList ∧
    (Comments.submit_comment s).commentsList.length = s.commentsList.length ∧
    (Comments.submit_comment s).commentsAdded = s.commentsAdded := by
  unfold Comments.submit_comment log_action
  simp only [emit, Comments.add_comment]
  rw [if_neg (by simp [h])]
  exact ⟨rfl, rfl, rfl⟩

/-- C3 witness: submitting with content `   ` (whitespace only) leaves the
freshly rendered panel's two entries untouched. -/
theorem submit_comment_empty_noop_witness :
    pyStrip (({ Comments.create_widget YouTubeApp.initState with
        commentEntry := "   " } : AppState).commentEntry ++ "\n") = "" ∧
    (Comments.submit_comment { Comments.create_widget YouTubeApp.initState with
        commentEntry := "   " }).commentsList.length = 2 :=
  ⟨by decide,
   by
    have h := submit_comment_empty_noop
      { Comments.create_widget YouTubeApp.initState with commentEntry := "   " } (by decide)
    exact h.2.1.trans (by decide)⟩

/-- C4: after a render the list holds exactly the two seed entries in order;
`add_comment` called with `Alice`/`Hi` on that panel unconditionally appends
exactly one entry, giving 3 entries whose third is `Alice`/`Hi` with the
first two unchanged; in general `add_comment` only ever appends at the end
(insertion order, no deletion). -/
theorem comments_seed_then_add (s : AppState) (u t : String) :
    (Comments.create_widget s).commentsList =
      [⟨"User1", "Great video!"⟩, ⟨"User2", "Very informative, thanks for sharing!"⟩] ∧
    (Comments.add_comment "Alice" "Hi" (Comments.create_widget s)).commentsList =
      [⟨"User1", "Great video!"⟩, ⟨"User2", "Very informative, thanks for sharing!"⟩,
       ⟨"Alice", "Hi"⟩] ∧
    (Comments.add_comment "Alice" "Hi" (Comments.create_widget s)).commentsList.length = 3 ∧
    (Comments.add_comment u t s).commentsList = s.commentsList ++ [⟨u, t⟩] := by
  exact ⟨rfl, rfl, rfl, rfl⟩

/-- C5: each tile of a rebuilt grid at row `i`, column `j` carries the title
`Video <i*3+j+1>` and a view count inside the inclusive range
`[100, 1000000]`, whatever the random source produced. -/
theorem tile_title_and_views (r : Nat → Nat) (s : AppState) (t : Tile)
    (ht : t ∈ (VideoGrid.update_grid r s).grid) :
    t.title = "Video " ++ toString (t.row * 3 + t.col + 1) ∧
    100 ≤ t.views ∧ t.views ≤ 1000000 := by
  have hg : (VideoGrid.update_grid r s).grid =
      [VideoGrid.make_tile r 0 0, VideoGrid.make_tile r 0 1, VideoGrid.make_tile r 0 2,
       VideoGrid.make_tile r 1 0, VideoGrid.make_tile r 1 1, VideoGrid.make_tile r 1 2,
       VideoGrid.make_tile r 2 0, VideoGrid.make_tile r 2 1, VideoGrid.make_tile r 2 2] := rfl
  rw [hg] at ht
  simp only [List.mem_cons, List.not_mem_nil, or_false] at ht
  rcases ht with h | h | h | h | h | h | h | h | h <;> subst h <;>
    exact ⟨rfl, randint_mem_range _⟩

/-- C5 witness at a concrete random source and tile. -/
theorem tile_title_and_views_witness :
    VideoGrid.make_tile (fun _ => 7) 1 2 ∈
      (VideoGrid.update_grid (fun _ => 7) YouTubeApp.initState).grid ∧
    (VideoGrid.make_tile (fun _ => 7) 1 2).title = "Video 6" ∧
    100 ≤ (VideoGrid.make_tile (fun _ => 7) 1 2).views ∧
    (VideoGrid.make_tile (fun _ => 7) 1 2).views ≤ 1000000 :=
  ⟨by decide,
   by
    have h := tile_title_and_views (fun _ => 7) YouTubeApp.initState
      (VideoGrid.make_tile (fun _ => 7) 1 2) (by decide)
    exact ⟨h.1.trans (by decide), h.2⟩⟩

/-- C6: `create_ui` invokes each panel's `create_widget` exactly once, in
the fixed order Header, Sidebar, Video Grid, Video Player, Comments, so on
startup the render log is exactly that five-element sequence. -/
theorem create_ui_renders_in_order (r : Nat → Nat) (s : AppState) :
    (YouTubeApp.create_ui r s).renderLog =
      s.renderLog ++ [PanelId.header, PanelId.sidebar, PanelId.videoGrid,
        PanelId.videoPlayer, PanelId.comments] ∧
    (YouTubeApp.startup r).renderLog =
      [PanelId.header, PanelId.sidebar, PanelId.videoGrid,
       PanelId.videoPlayer, PanelId.comments] ∧
    ∀ p : PanelId, (YouTubeApp.startup r).renderLog.count p = 1 := by
  refine ⟨?_, rfl, ?_⟩
  · show ((((s.renderLog ++ [PanelId.header]) ++ [PanelId.sidebar]) ++ [PanelId.videoGrid])
        ++ [PanelId.videoPlayer]) ++ [PanelId.comments] = _
    simp
  · intro p
    show List.count p [PanelId.header, PanelId.sidebar, PanelId.videoGrid,
      PanelId.videoPlayer, PanelId.comments] = 1
    cases p <;> rfl

/-- C7: each decorated action — `search`, `update_grid`, `submit_comment` —
adds to stdout exactly one line `Action logged: <name> called`, placed
immediately after the previous output and before anything the action's body
prints (for `search`, the body's own report line follows it; the other two
bodies print nothing). -/
theorem log_action_line_first (s : AppState) (r : Nat → Nat) :
    (Header.search s).out =
      s.out ++ ["Action logged: search called", "Searching for: " ++ s.searchEntry] ∧
    (VideoGrid.update_grid r s).out = s.out ++ ["Action logged: update_grid called"] ∧
    (Comments.submit_comment s).out = s.out ++ ["Action logged: submit_comment called"] := by
  refine ⟨?_, rfl, ?_⟩
  · show (s.out ++ ["Action logged: search called"]) ++ ["Searching for: " ++ s.searchEntry] = _
    simp
  · unfold Comments.submit_comment log_action
    simp only [emit, Comments.add_comment]
    split <;> rfl

/-- C8: `search` prints exactly one search report, which contains the
current input-box content `q` as a literal substring, and leaves every other
piece of application state (grid, comments, input boxes, render log)
untouched. -/
theorem search_reports_and_frames (s : AppState) :
    (Header.search s).out =
      s.out ++ ["Action logged: search called", "Searching for: " ++ s.searchEntry] ∧
    (∃ a b : String, "Searching for: " ++ s.searchEntry = a ++ s.searchEntry ++ b) ∧
    (Header.search s).searchEntry = s.searchEntry ∧
    (Header.search s).grid = s.grid ∧
    (Header.search s).commentEntry = s.commentEntry ∧
    (Header.search s).commentsList = s.commentsList ∧
    (Header.search s).commentsAdded = s.commentsAdded ∧
    (Header.search s).renderLog = s.renderLog := by
  refine ⟨?_, ⟨"Searching for: ", "", by simp⟩, rfl, rfl, rfl, rfl, rfl, rfl⟩
  show (s.out ++ ["Action logged: search called"]) ++ ["Searching for: " ++ s.searchEntry] = _
  simp

/-- C9: when the input strips to the empty string, `submit_comment` does not
clear the input box: its content is exactly what it was before the call. -/
theorem submit_comment_empty_keeps_input (s : AppState)
    (h : pyStrip (s.commentEntry ++ "\n") = "") :
    (Comments.submit_comment s).commentEntry = s.commentEntry := by
  unfold Comments.submit_comment log_action
  simp only [emit, Comments.add_comment]
  rw [if_neg (by simp [h])]

/-- C9 witness: with content `   ` the box still holds `   ` afterwards. -/
theorem submit_comment_empty_keeps_input_witness :
    pyStrip (({ YouTubeApp.initState with commentEntry := "   " } : AppState).commentEntry
      ++ "\n") = "" ∧
    (Comments.submit_comment { YouTubeApp.initState with
      commentEntry := "   " }).commentEntry = "   " :=
  ⟨by decide,
   submit_comment_empty_keeps_input
     { YouTubeApp.initState with commentEntry := "   " } (by decide)⟩

/-- C10: `create_widget` on the comments panel is not idempotent: a second
call builds a fresh input box and list container (the visible list again
holds just the two seeds and the box is empty) but packs the two seed
entries again, so after two calls four seed comment frames have been
created in total — in contrast to `update_grid`, whose repetition leaves
exactly the same nine fresh tiles as a single call. -/
theorem create_widget_not_idempotent (s : AppState) (r r2 : Nat → Nat) :
    (Comments.create_widget (Comments.create_widget s)).commentsAdded =
      s.commentsAdded ++
        [⟨"User1", "Great video!"⟩, ⟨"User2", "Very informative, thanks for sharing!"⟩,
         ⟨"User1", "Great video!"⟩, ⟨"User2", "Very informative, thanks for sharing!"⟩] ∧
    (Comments.create_widget (Comments.create_widget s)).commentsAdded.length =
      s.commentsAdded.length + 4 ∧
    (Comments.create_widget (Comments.create_widget s)).commentsList =
      [⟨"User1", "Great video!"⟩, ⟨"User2", "Very informative, thanks for sharing!"⟩] ∧
    (Comments.create_widget (Comments.create_widget s)).commentEntry = "" ∧
    (VideoGrid.update_grid r (VideoGrid.update_grid r2 s)).grid =
      (VideoGrid.update_grid r s).grid ∧
    (VideoGrid.update_grid r (VideoGrid.update_grid r2 s)).grid.length = 9 := by
  have h1 : (Comments.create_widget (Comments.create_widget s)).commentsAdded =
      s.commentsAdded ++
        [⟨"User1", "Great video!"⟩, ⟨"User2", "Very informative, thanks for sharing!"⟩,
         ⟨"User1", "Great video!"⟩, ⟨"User2", "Very informative, thanks for sharing!"⟩] := by
    show (((s.commentsAdded ++ [_]) ++ [_]) ++ [_]) ++ [_] = _
    simp
  refine ⟨h1, ?_, rfl, rfl, rfl, rfl⟩
  rw [h1]
  simp
